import Mathlib

/-!
Verification of the TAD.RV kernel driver core (src/Kernel/TAD_RV.c,
src/TAD-RV-v26200.172-AIO/Kernel/TAD_RV.h, src/Shared/TadShared.h)
against its natural-language specification.

Shallow embedding conventions:
  * process identities (PIDs / HANDLE values) are `Nat`, with `0` playing the
    role of the NULL handle sentinel used by the C code;
  * the `PEPROCESS g_Tad.AgentProcess` pointer is modelled as
    `Option Nat` (the identity of the referenced process), `none` = NULL;
  * wide strings (`WCHAR` arrays / `UNICODE_STRING`) are `List Nat` of
    character codes; a list shorter than its fixed C field stands for the
    field padded with NUL (`0`) characters;
  * timestamps (`LARGE_INTEGER` from KeQuerySystemTime, 100 ns units) are
    `Int`;
  * a device-control request carries the declared buffer lengths and the
    payload the system buffer holds (`Option` payload, `none` = NULL buffer);
    dereferencing a NULL buffer is the distinguished outcome
    `DispatchOutcome.nullDeref`.
-/

namespace TadRV

/- ═══════════ Constants from TAD_RV.h / TadShared.h ═══════════ -/

def TAD_AUTH_KEY_SIZE : Nat := 32

def TAD_KEY_XOR_MASK : Nat := 0xA7

/-- `TadObfuscatedKey` from TAD_RV.h. -/
def tadObfuscatedKey : List Nat :=
  [0xF3, 0xE6, 0xE3, 0x8A, 0xF5, 0xF1, 0x89, 0xF4,
   0xE2, 0xE4, 0xF2, 0xF5, 0xEE, 0xF3, 0xF2, 0xEC,
   0xE2, 0xFE, 0x97, 0x96, 0x95, 0x94, 0x93, 0x92,
   0xEA, 0xE8, 0xE9, 0xEE, 0xF3, 0xE8, 0xE9, 0x86]

/-- The de-obfuscated stored secret: each byte of `TadObfuscatedKey`
XOR-ed with `TAD_KEY_XOR_MASK`. -/
def tadDecodedKeyList : List Nat := tadObfuscatedKey.map (fun b => b ^^^ TAD_KEY_XOR_MASK)

def TAD_MAX_UNLOCK_ATTEMPTS : Nat := 5

/-- `-TAD_LOCKOUT_DURATION` = 30 seconds in 100 ns units; the amount added to
the current time to produce `LockoutUntil`. -/
def TAD_LOCKOUT_TICKS : Int := 300000000

def TAD_MAX_BANNED_APPS : Nat := 32

def TAD_MAX_IMAGE_NAME_LEN : Nat := 64

def TAD_POLICY_FLAG_BLOCK_APPS : Nat := 0x00000010

/-- `PROCESS_TERMINATE | PROCESS_VM_WRITE | PROCESS_VM_OPERATION |
PROCESS_CREATE_THREAD | PROCESS_SUSPEND_RESUME`. -/
def TAD_STRIPPED_PROCESS_RIGHTS : Nat := 0x0001 ||| 0x0020 ||| 0x0008 ||| 0x0002 ||| 0x0800

/-- `THREAD_TERMINATE | THREAD_SUSPEND_RESUME | THREAD_SET_CONTEXT`. -/
def TAD_STRIPPED_THREAD_RIGHTS : Nat := 0x0001 ||| 0x0002 ||| 0x0010

/-- 32-bit ACCESS_MASK universe; `mask &&& (ACCESS_MASK_ALL ^^^ r)` models
`mask &= ~r` on a 32-bit mask. -/
def ACCESS_MASK_ALL : Nat := 0xFFFFFFFF

/-- A wide string as a list of character codes. -/
def wstr (s : String) : List Nat := s.data.map Char.toNat

def TAD_DRIVER_FILENAME : List Nat := wstr "TAD.RV.sys"

def TAD_UI_FILENAME : List Nat := wstr "TAD.RV.exe"

def TAD_SERVICE_FILENAME : List Nat := wstr "TadBridgeService.exe"

/- sizeof() of the IOCTL payload structures (8-byte pack, as in TadShared.h) -/

def sizeofProtectPidInput : Nat := 8

def sizeofUnlockInput : Nat := 32

def sizeofHeartbeatOutput : Nat := 28

def sizeofSetUserRoleInput : Nat := 144

def sizeofPolicyBuffer : Nat := 564

def sizeofAlertOutput : Nat := 280

def sizeofHardLockInput : Nat := 8

def sizeofProtectUiInput : Nat := 8

def sizeofStealthInput : Nat := 8

def sizeofBannedAppsInput : Nat := 4100

/- ═══════════ Data model ═══════════ -/

/-- `TAD_POLICY_BUFFER` from TadShared.h. -/
structure TadPolicyBuffer where
  version : Nat
  flags : Nat
  heartbeatIntervalMs : Nat
  heartbeatTimeoutMs : Nat
  organizationalUnit : List Nat
  allowedRoles : Nat
  reserved : List Nat
  deriving Repr, DecidableEq

/-- The all-zero policy record (state at driver load). -/
def tadZeroPolicy : TadPolicyBuffer :=
  { version := 0, flags := 0, heartbeatIntervalMs := 0, heartbeatTimeoutMs := 0
  , organizationalUnit := [], allowedRoles := 0, reserved := [] }

/-- `TAD_DRIVER_GLOBALS` (g_Tad), restricted to the enforcement-state fields
(the device/registration bookkeeping fields play no part in the claims'
behaviour and are external collaborators). -/
structure TadState where
  /-- `g_Tad.AgentProcess` (PEPROCESS, identified by its PID; none = NULL) -/
  agentProcess : Option Nat
  /-- `g_Tad.ProtectedPid` (HANDLE; 0 = NULL) -/
  protectedPid : Nat
  /-- `g_Tad.ProtectedUiPid` (HANDLE; 0 = NULL) -/
  protectedUiPid : Nat
  /-- `g_Tad.AllowUnload` -/
  allowUnload : Bool
  /-- `g_Tad.InputLocked` -/
  inputLocked : Bool
  /-- `g_Tad.StealthActive` -/
  stealthActive : Bool
  /-- `g_Tad.StealthFlags` -/
  stealthFlags : Nat
  /-- `g_Tad.FailedUnlockAttempts` -/
  failedUnlockAttempts : Nat
  /-- `g_Tad.LockoutUntil` -/
  lockoutUntil : Int
  /-- `g_Tad.HeartbeatAlive` -/
  heartbeatAlive : Bool
  /-- `g_Tad.LastHeartbeatTime` -/
  lastHeartbeatTime : Int
  /-- `g_Tad.CurrentPolicy` -/
  currentPolicy : TadPolicyBuffer
  /-- `g_Tad.PolicyValid` -/
  policyValid : Bool
  /-- `g_Tad.CurrentUserRole` -/
  currentUserRole : Nat
  /-- `g_Tad.BannedApps` / `g_Tad.BannedAppStorage`: 32 slots, a zeroed slot
  is the empty list -/
  bannedApps : List (List Nat)
  /-- `g_Tad.BannedAppCount` -/
  bannedAppCount : Nat
  deriving Repr, DecidableEq

/-- State after `DriverEntry` zeroes `g_Tad` (CurrentUserRole is set to
`TadRoleUnknown = 0xFF`). -/
def tadInitialState : TadState :=
  { agentProcess := none
  , protectedPid := 0
  , protectedUiPid := 0
  , allowUnload := false
  , inputLocked := false
  , stealthActive := false
  , stealthFlags := 0
  , failedUnlockAttempts := 0
  , lockoutUntil := 0
  , heartbeatAlive := false
  , lastHeartbeatTime := 0
  , currentPolicy := tadZeroPolicy
  , policyValid := false
  , currentUserRole := 0xFF
  , bannedApps := List.replicate 32 []
  , bannedAppCount := 0 }

/- ═══════════ Security utilities (section 4 of TAD_RV.c) ═══════════ -/

/-- `TadVerifyAuthKey`, instrumented with a count of byte operations: the
first component is the C function's return value, the second counts one byte
operation per loop iteration (32 decode iterations, then 32 XOR-accumulate
iterations, with no early exit). `ProvidedKey.getD i 0` reads byte `i` of the
caller's 32-byte buffer. -/
def tadVerifyAuthKeyCounted (ProvidedKey : List Nat) : Bool × Nat :=
  let decoded : List Nat × Nat :=
    (List.range TAD_AUTH_KEY_SIZE).foldl
      (fun acc i => (acc.1 ++ [tadObfuscatedKey.getD i 0 ^^^ TAD_KEY_XOR_MASK], acc.2 + 1))
      ([], 0)
  let diff : Nat × Nat :=
    (List.range TAD_AUTH_KEY_SIZE).foldl
      (fun acc i => (acc.1 ||| (decoded.1.getD i 0 ^^^ ProvidedKey.getD i 0), acc.2 + 1))
      (0, decoded.2)
  (diff.1 == 0, diff.2)

/-- `TadVerifyAuthKey` proper (return value only). -/
def tadVerifyAuthKey (ProvidedKey : List Nat) : Bool :=
  (tadVerifyAuthKeyCounted ProvidedKey).1

/-- `TadIsCallerProtectedAgent`: the caller is the registered agent process
(`g_Tad.AgentProcess && PsGetCurrentProcess() == g_Tad.AgentProcess`). -/
def tadIsCallerProtectedAgent (s : TadState) (caller : Nat) : Bool :=
  s.agentProcess == some caller

/-- `RtlUpcaseUnicodeChar` restricted to the characters that occur in the
filenames in scope (ASCII). -/
def wupcase (c : Nat) : Nat := if 97 ≤ c ∧ c ≤ 122 then c - 32 else c

/-- Case-insensitive wide-string equality, as produced by
`RtlEqualUnicodeString(a, b, TRUE)` / `RtlCompareUnicodeString(..., TRUE) == 0`. -/
def tadEqualCI (a b : List Nat) : Bool := a.map wupcase == b.map wupcase

/-- `TadIsProtectedFilename`: case-insensitive comparison of a final path
component against the three fixed protected names. -/
def tadIsProtectedFilename (FileName : List Nat) : Bool :=
  tadEqualCI FileName TAD_DRIVER_FILENAME ||
  tadEqualCI FileName TAD_UI_FILENAME ||
  tadEqualCI FileName TAD_SERVICE_FILENAME

/- ═══════════ Command Bridge (TadDispatchDeviceControl) ═══════════ -/

inductive NtStatus where
  | success
  | bufferTooSmall
  | invalidParameter
  | accessDenied
  | invalidDeviceRequest
  deriving Repr, DecidableEq

/-- `TAD_PROTECT_PID_INPUT`. -/
structure TadProtectPidInput where
  targetPid : Nat
  flags : Nat
  deriving Repr, DecidableEq

/-- `TAD_SET_USER_ROLE_INPUT`. -/
structure TadSetUserRoleInput where
  role : Nat
  sessionId : Nat
  userSid : List Nat
  deriving Repr, DecidableEq

/-- `TAD_HARD_LOCK_INPUT`. -/
structure TadHardLockInput where
  enable : Nat
  flags : Nat
  deriving Repr, DecidableEq

/-- `TAD_PROTECT_UI_INPUT`. -/
structure TadProtectUiInput where
  targetPid : Nat
  protect : Nat
  deriving Repr, DecidableEq

/-- `TAD_STEALTH_INPUT`. -/
structure TadStealthInput where
  enable : Nat
  flags : Nat
  deriving Repr, DecidableEq

/-- `TAD_BANNED_APPS_INPUT`: `imageNames.getD i []` is the raw 64-WCHAR field
`ImageNames[i]` (a short list stands for a NUL-padded field). -/
structure TadBannedAppsInput where
  count : Nat
  imageNames : List (List Nat)
  deriving Repr, DecidableEq

/-- One device-control request: the IOCTL code together with the declared
buffer length and the payload held by `Irp->AssociatedIrp.SystemBuffer`
(`none` = NULL system buffer).  For the two output-only IOCTLs only the
presence of the buffer matters. -/
inductive TadRequest where
  | protectPid (inLen : Nat) (buf : Option TadProtectPidInput)
  | unlock (inLen : Nat) (buf : Option (List Nat))
  | heartbeat (outLen : Nat) (bufPresent : Bool)
  | setUserRole (inLen : Nat) (buf : Option TadSetUserRoleInput)
  | setPolicy (inLen : Nat) (buf : Option TadPolicyBuffer)
  | readAlert (outLen : Nat) (bufPresent : Bool)
  | hardLock (inLen : Nat) (buf : Option TadHardLockInput)
  | protectUi (inLen : Nat) (buf : Option TadProtectUiInput)
  | stealth (inLen : Nat) (buf : Option TadStealthInput)
  | setBannedApps (inLen : Nat) (buf : Option TadBannedAppsInput)
  | unknown
  deriving Repr, DecidableEq

/-- Result of one dispatch: completed IRP (status, resulting globals,
`IoStatus.Information`), or a read/write through a NULL system buffer
(the state the globals held when the fault occurred is recorded). -/
inductive DispatchOutcome where
  | ok (status : NtStatus) (st : TadState) (info : Nat)
  | nullDeref (st : TadState)
  deriving Repr, DecidableEq

def tadOutcomeState : DispatchOutcome → TadState
  | .ok _ s _ => s
  | .nullDeref s => s

/-- `IOCTL_TAD_PROTECT_PID` case.  `pidExists` models
`PsLookupProcessByProcessId` succeeding for a PID. -/
def tadProtectPidHandler (pidExists : Nat → Bool) (s : TadState)
    (inLen : Nat) (buf : Option TadProtectPidInput) : DispatchOutcome :=
  if inLen < sizeofProtectPidInput then .ok .bufferTooSmall s 0
  else match buf with
  | none => .ok .invalidParameter s 0
  | some p =>
    if p.targetPid = 0 ∨ p.flags ≠ 0 then .ok .invalidParameter s 0
    else if ¬ pidExists p.targetPid then .ok .invalidParameter s 0
    else .ok .success { s with agentProcess := some p.targetPid
                             , protectedPid := p.targetPid } 0

/-- Verification phase of `IOCTL_TAD_UNLOCK` (after the size, NULL-buffer,
caller-identity and lockout checks). -/
def tadUnlockVerifyPhase (now : Int) (s : TadState) (key : List Nat) : DispatchOutcome :=
  if tadVerifyAuthKey key then
    .ok .success { s with allowUnload := true, failedUnlockAttempts := 0 } 0
  else
    let a := s.failedUnlockAttempts + 1
    if TAD_MAX_UNLOCK_ATTEMPTS ≤ a then
      .ok .accessDenied { s with failedUnlockAttempts := a
                               , lockoutUntil := now + TAD_LOCKOUT_TICKS } 0
    else
      .ok .accessDenied { s with failedUnlockAttempts := a } 0

/-- `IOCTL_TAD_UNLOCK` case. -/
def tadUnlockHandler (caller : Nat) (now : Int) (s : TadState)
    (inLen : Nat) (buf : Option (List Nat)) : DispatchOutcome :=
  if inLen < sizeofUnlockInput then .ok .bufferTooSmall s 0
  else match buf with
  | none => .ok .invalidParameter s 0
  | some key =>
    if s.agentProcess.isSome ∧ ¬ tadIsCallerProtectedAgent s caller then
      .ok .accessDenied s 0
    else if TAD_MAX_UNLOCK_ATTEMPTS ≤ s.failedUnlockAttempts then
      if now < s.lockoutUntil then .ok .accessDenied s 0
      else tadUnlockVerifyPhase now { s with failedUnlockAttempts := 0 } key
    else tadUnlockVerifyPhase now s key

/-- `IOCTL_TAD_HEARTBEAT` case: marks the service alive, then writes the
status snapshot through the output buffer (no NULL check before the write). -/
def tadHeartbeatHandler (now : Int) (s : TadState)
    (outLen : Nat) (bufPresent : Bool) : DispatchOutcome :=
  if outLen < sizeofHeartbeatOutput then .ok .bufferTooSmall s 0
  else
    let s' := { s with heartbeatAlive := true, lastHeartbeatTime := now }
    if ¬ bufPresent then .nullDeref s'
    else .ok .success s' sizeofHeartbeatOutput

/-- `IOCTL_TAD_SET_USER_ROLE` case. -/
def tadSetUserRoleHandler (caller : Nat) (s : TadState)
    (inLen : Nat) (buf : Option TadSetUserRoleInput) : DispatchOutcome :=
  if inLen < sizeofSetUserRoleInput then .ok .bufferTooSmall s 0
  else match buf with
  | none => .ok .invalidParameter s 0
  | some p =>
    if s.agentProcess.isSome ∧ ¬ tadIsCallerProtectedAgent s caller then
      .ok .accessDenied s 0
    else .ok .success { s with currentUserRole := p.role } 0

/-- `IOCTL_TAD_SET_POLICY` case. -/
def tadSetPolicyHandler (caller : Nat) (s : TadState)
    (inLen : Nat) (buf : Option TadPolicyBuffer) : DispatchOutcome :=
  if inLen < sizeofPolicyBuffer then .ok .bufferTooSmall s 0
  else match buf with
  | none => .ok .invalidParameter s 0
  | some p =>
    if s.agentProcess.isSome ∧ ¬ tadIsCallerProtectedAgent s caller then
      .ok .accessDenied s 0
    else if p.version ≠ 1 then .ok .invalidParameter s 0
    else .ok .success { s with currentPolicy := p, policyValid := true } 0

/-- `IOCTL_TAD_READ_ALERT` case: writes an empty alert through the output
buffer (no NULL check before the write); no state change. -/
def tadReadAlertHandler (s : TadState)
    (outLen : Nat) (bufPresent : Bool) : DispatchOutcome :=
  if outLen < sizeofAlertOutput then .ok .bufferTooSmall s 0
  else if ¬ bufPresent then .nullDeref s
  else .ok .success s sizeofAlertOutput

/-- `IOCTL_TAD_HARD_LOCK` case: size check, then the strict caller check
(`!TadIsCallerProtectedAgent()`), then the buffer is dereferenced with no
NULL check. -/
def tadHardLockHandler (caller : Nat) (s : TadState)
    (inLen : Nat) (buf : Option TadHardLockInput) : DispatchOutcome :=
  if inLen < sizeofHardLockInput then .ok .bufferTooSmall s 0
  else if ¬ tadIsCallerProtectedAgent s caller then .ok .accessDenied s 0
  else match buf with
  | none => .nullDeref s
  | some hl => .ok .success { s with inputLocked := hl.enable ≠ 0 } 0

/-- `IOCTL_TAD_PROTECT_UI` case (same check structure as HARD_LOCK). -/
def tadProtectUiHandler (caller : Nat) (s : TadState)
    (inLen : Nat) (buf : Option TadProtectUiInput) : DispatchOutcome :=
  if inLen < sizeofProtectUiInput then .ok .bufferTooSmall s 0
  else if ¬ tadIsCallerProtectedAgent s caller then .ok .accessDenied s 0
  else match buf with
  | none => .nullDeref s
  | some ui =>
    if ui.protect ≠ 0 then .ok .success { s with protectedUiPid := ui.targetPid } 0
    else .ok .success { s with protectedUiPid := 0 } 0

/-- `IOCTL_TAD_STEALTH` case (same check structure as HARD_LOCK). -/
def tadStealthHandler (caller : Nat) (s : TadState)
    (inLen : Nat) (buf : Option TadStealthInput) : DispatchOutcome :=
  if inLen < sizeofStealthInput then .ok .bufferTooSmall s 0
  else if ¬ tadIsCallerProtectedAgent s caller then .ok .accessDenied s 0
  else match buf with
  | none => .nullDeref s
  | some stl =>
    if stl.enable ≠ 0 then
      .ok .success { s with stealthActive := true, stealthFlags := stl.flags } 0
    else
      .ok .success { s with stealthActive := false, stealthFlags := 0 } 0

/-- The validation applied to one `ImageNames[i]` field: the length of the
string up to (excluding) the first NUL, capped at the 64-WCHAR field size. -/
def tadEntryChars (entry : List Nat) : List Nat :=
  (entry.take TAD_MAX_IMAGE_NAME_LEN).takeWhile (fun c => c ≠ 0)

/-- The replacement loop of `IOCTL_TAD_SET_BANNED_APPS`: starting from the
zeroed storage, entry `i` (for `i < count`) is validated; a valid entry is
stored at slot `i` and `BannedAppCount` is incremented. -/
def tadSetBannedAppsLoop (names : List (List Nat)) (count : Nat) :
    List (List Nat) × Nat :=
  (List.range count).foldl
    (fun acc i =>
      let src := tadEntryChars (names.getD i [])
      if src.length = 0 ∨ TAD_MAX_IMAGE_NAME_LEN ≤ src.length then acc
      else (acc.1.set i src, acc.2 + 1))
    (List.replicate 32 [], 0)

/-- `IOCTL_TAD_SET_BANNED_APPS` case. -/
def tadSetBannedAppsHandler (caller : Nat) (s : TadState)
    (inLen : Nat) (buf : Option TadBannedAppsInput) : DispatchOutcome :=
  if inLen < sizeofBannedAppsInput then .ok .bufferTooSmall s 0
  else if ¬ tadIsCallerProtectedAgent s caller then .ok .accessDenied s 0
  else match buf with
  | none => .nullDeref s
  | some p =>
    if TAD_MAX_BANNED_APPS < p.count then .ok .invalidParameter s 0
    else
      let r := tadSetBannedAppsLoop p.imageNames p.count
      .ok .success { s with bannedApps := r.1, bannedAppCount := r.2 } 0

/-- `TadDispatchDeviceControl`.  `pidExists` models the external
process-lookup facility, `caller` the identity of the requesting process
(`PsGetCurrentProcess`/`PsGetCurrentProcessId`), `now` the system time. -/
def tadDispatchDeviceControl (pidExists : Nat → Bool) (caller : Nat) (now : Int)
    (s : TadState) (req : TadRequest) : DispatchOutcome :=
  match req with
  | .protectPid inLen buf => tadProtectPidHandler pidExists s inLen buf
  | .unlock inLen buf => tadUnlockHandler caller now s inLen buf
  | .heartbeat outLen bufPresent => tadHeartbeatHandler now s outLen bufPresent
  | .setUserRole inLen buf => tadSetUserRoleHandler caller s inLen buf
  | .setPolicy inLen buf => tadSetPolicyHandler caller s inLen buf
  | .readAlert outLen bufPresent => tadReadAlertHandler s outLen bufPresent
  | .hardLock inLen buf => tadHardLockHandler caller s inLen buf
  | .protectUi inLen buf => tadProtectUiHandler caller s inLen buf
  | .stealth inLen buf => tadStealthHandler caller s inLen buf
  | .setBannedApps inLen buf => tadSetBannedAppsHandler caller s inLen buf
  | .unknown => .ok .invalidDeviceRequest s 0

/- ═══════════ Handle Interception (ObRegisterCallbacks) ═══════════ -/

/-- The two operations the callbacks are registered for
(`OB_OPERATION_HANDLE_CREATE | OB_OPERATION_HANDLE_DUPLICATE`). -/
inductive ObOperation where
  | handleCreate
  | handleDuplicate
  deriving Repr, DecidableEq

/-- `OpInfo->ObjectType` (`*PsProcessType` / `*PsThreadType`). -/
inductive ObObjectType where
  | process
  | thread
  deriving Repr, DecidableEq

inductive ObPreopStatus where
  | success
  deriving Repr, DecidableEq

/-- Result of a pre-operation callback: the callback status — always
`OB_PREOP_SUCCESS`, the operation itself proceeds — and the (possibly
modified) `DesiredAccess` mask. -/
structure ObPreResult where
  status : ObPreopStatus
  desiredAccess : Nat
  deriving Repr, DecidableEq

/-- `DesiredAccess &= ~rights` on a 32-bit ACCESS_MASK. -/
def tadStripRights (mask rights : Nat) : Nat :=
  mask &&& (ACCESS_MASK_ALL ^^^ rights)

/-- `TadObProcessPreCallback`. `targetPid` is
`PsGetProcessId(OpInfo->Object)`, `callerPid` is `PsGetCurrentProcessId()`. -/
def tadObProcessPreCallback (s : TadState) (objType : ObObjectType)
    (targetPid callerPid : Nat) (op : ObOperation) (desiredAccess : Nat) :
    ObPreResult :=
  let pPid := if s.protectedPid ≠ 0 then s.protectedPid else s.protectedUiPid
  if pPid = 0 then ⟨.success, desiredAccess⟩
  else if objType ≠ .process then ⟨.success, desiredAccess⟩
  else
    let svcPid := s.protectedPid
    let uiPid := s.protectedUiPid
    if targetPid ≠ svcPid ∧ targetPid ≠ uiPid then ⟨.success, desiredAccess⟩
    else if callerPid = svcPid ∨ callerPid = uiPid then ⟨.success, desiredAccess⟩
    else match op with
      | .handleCreate =>
          ⟨.success, tadStripRights desiredAccess TAD_STRIPPED_PROCESS_RIGHTS⟩
      | .handleDuplicate =>
          ⟨.success, tadStripRights desiredAccess TAD_STRIPPED_PROCESS_RIGHTS⟩

/-- `TadObThreadPreCallback`. `ownerPid` is
`PsGetProcessId(IoThreadToProcess(OpInfo->Object))`. -/
def tadObThreadPreCallback (s : TadState) (objType : ObObjectType)
    (ownerPid callerPid : Nat) (op : ObOperation) (desiredAccess : Nat) :
    ObPreResult :=
  let pPid := if s.protectedPid ≠ 0 then s.protectedPid else s.protectedUiPid
  if pPid = 0 then ⟨.success, desiredAccess⟩
  else if objType ≠ .thread then ⟨.success, desiredAccess⟩
  else
    let svcPid := s.protectedPid
    let uiPid := s.protectedUiPid
    if ownerPid ≠ svcPid ∧ ownerPid ≠ uiPid then ⟨.success, desiredAccess⟩
    else if callerPid = svcPid ∨ callerPid = uiPid then ⟨.success, desiredAccess⟩
    else match op with
      | .handleCreate =>
          ⟨.success, tadStripRights desiredAccess TAD_STRIPPED_THREAD_RIGHTS⟩
      | .handleDuplicate =>
          ⟨.success, tadStripRights desiredAccess TAD_STRIPPED_THREAD_RIGHTS⟩

/- ═══════════ Filesystem Intercept (minifilter) ═══════════ -/

/-- The `FILE_INFORMATION_CLASS` values the pre-operation callback
distinguishes.  `dispositionInformation` carries the `DeleteFile` field of
the `FILE_DISPOSITION_INFORMATION` info buffer (`none` = NULL info buffer);
`dispositionInformationEx` carries the `Flags` word of
`FILE_DISPOSITION_INFORMATION_EX`, which the code never reads. -/
inductive FileInfoClass where
  | dispositionInformation (deleteFile : Option Bool)
  | dispositionInformationEx (flags : Nat)
  | renameInformation
  | renameInformationEx
  | other
  deriving Repr, DecidableEq

inductive FltPreOpResult where
  | successNoCallback
  | complete (status : NtStatus)
  deriving Repr, DecidableEq

/-- The `isDeletion`/`isRename` classification of
`TadPreSetInformationCallback` (true when the operation is recognized as a
deletion or rename). -/
def tadRecognizedOp : FileInfoClass → Bool
  | .dispositionInformation (some true) => true
  | .dispositionInformation _ => false
  | .dispositionInformationEx _ => true
  | .renameInformation => true
  | .renameInformationEx => true
  | .other => false

/-- `TadPreSetInformationCallback`.  `finalComponent` is
`nameInfo->FinalComponent` when `FltGetFileNameInformation` and
`FltParseFileNameInformation` succeed, `none` when resolution fails (the code
then passes the operation through). -/
def tadPreSetInformationCallback (infoClass : FileInfoClass)
    (finalComponent : Option (List Nat)) : FltPreOpResult :=
  if ¬ tadRecognizedOp infoClass then .successNoCallback
  else match finalComponent with
  | none => .successNoCallback
  | some comp =>
    if tadIsProtectedFilename comp then .complete .accessDenied
    else .successNoCallback

/- ═══════════ Process-Launch Intercept (PsSetCreateProcessNotifyRoutineEx) ═ -/

/-- Index one past the last backslash of the image path (the `lastSep`
loop of `TadProcessNotifyCallback`); `92` is `L'\\'`. -/
def tadLastSep (name : List Nat) : Nat :=
  (List.range name.length).foldl
    (fun acc k => if name.getD k 0 = 92 then k + 1 else acc) 0

/-- The final path component: everything after the last backslash. -/
def tadFinalComponent (name : List Nat) : List Nat :=
  name.drop (tadLastSep name)

/-- `TadProcessNotifyCallback` for a process creation, as the decision it
takes: `true` when it sets `CreateInfo->CreationStatus = STATUS_ACCESS_DENIED`.
`imageFileName` is `CreateInfo->ImageFileName` (`none` = NULL). -/
def tadProcessNotifyCallback (s : TadState) (imageFileName : Option (List Nat)) :
    Bool :=
  match imageFileName with
  | none => false
  | some name =>
    if name.length = 0 then false
    else if s.currentPolicy.flags &&& TAD_POLICY_FLAG_BLOCK_APPS = 0 then false
    else
      let component := tadFinalComponent name
      if component.length = 0 then false
      else (s.bannedApps.take s.bannedAppCount).any (fun e => tadEqualCI component e)

/-- The banned-app set a state holds, as a set of filename patterns: the
entries the Process-Launch Intercept scans, with the zeroed (empty) slots —
which can never match a non-empty filename — removed. -/
def tadBannedSet (s : TadState) : List (List Nat) :=
  (s.bannedApps.take s.bannedAppCount).filter (fun e => e ≠ [])

/- ═══════════ Reachable driver states ═══════════ -/

/-- States of `g_Tad` the driver can be in: the zeroed load-time state, and
every state a completed device-control request can produce from a reachable
state. -/
inductive TadReachable : TadState → Prop where
  | init : TadReachable tadInitialState
  | step {s : TadState} {pidExists : Nat → Bool} {caller : Nat} {now : Int}
      {req : TadRequest} {st : NtStatus} {s' : TadState} {info : Nat} :
      TadReachable s →
      tadDispatchDeviceControl pidExists caller now s req = .ok st s' info →
      TadReachable s'

/- ═══════════ Concrete inputs and states used by individual theorems ═════ -/

/-- A provided key differing from the stored secret exactly at byte 0. -/
def tadKeyDiff0 : List Nat := tadDecodedKeyList.set 0 0

/-- A provided key differing from the stored secret exactly at byte 31. -/
def tadKeyDiff31 : List Nat := tadDecodedKeyList.set 31 0

/-- A state with an agent registered and the block-apps policy active. -/
def tadC2State : TadState :=
  { tadInitialState with
      agentProcess := some 7
    , protectedPid := 7
    , currentPolicy := { tadZeroPolicy with version := 1, flags := TAD_POLICY_FLAG_BLOCK_APPS }
    , policyValid := true }

/-- A SetBannedApps payload whose first entry is invalid (empty) and whose
second entry is valid. -/
def tadC2Input : TadBannedAppsInput := ⟨2, [[], wstr "a.exe"]⟩

/-- The same two entries with the valid one first. -/
def tadC2InputSwapped : TadBannedAppsInput := ⟨2, [wstr "a.exe", []]⟩

/-- State after `ProtectPid(7)` from the load state. -/
def tadW5a : TadState := { tadInitialState with agentProcess := some 7, protectedPid := 7 }

/-- A version-1 policy with the block-apps flag set. -/
def tadW5Pol : TadPolicyBuffer :=
  { tadZeroPolicy with version := 1, flags := TAD_POLICY_FLAG_BLOCK_APPS }

/-- State after additionally accepting `tadW5Pol`. -/
def tadW5b : TadState := { tadW5a with currentPolicy := tadW5Pol, policyValid := true }

/-- State after additionally accepting the banned-app list `["a.exe"]`. -/
def tadW5c : TadState :=
  { tadW5b with bannedApps := (List.replicate 32 []).set 0 (wstr "a.exe")
              , bannedAppCount := 1 }

/- ═══════════ Helper lemmas ═══════════ -/

lemma nat_or_eq_zero {a b : Nat} : a ||| b = 0 ↔ a = 0 ∧ b = 0 := by
  constructor
  · intro h
    have hb : ∀ i, (a ||| b).testBit i = false := by simp [h]
    constructor <;> apply Nat.eq_of_testBit_eq <;> intro i <;>
      [skip; skip] <;> {
        have hh := hb i
        simp [Nat.testBit_or] at hh
        simp [hh.1, hh.2]
      }
  · rintro ⟨rfl, rfl⟩; rfl

lemma foldl_pair_or (g : Nat → Nat) :
    ∀ (l : List Nat) (a c : Nat),
      l.foldl (fun acc i => (acc.1 ||| g i, acc.2 + 1)) (a, c)
        = (l.foldl (fun x i => x ||| g i) a, c + l.length) := by
  intro l
  induction l with
  | nil => simp
  | cons hd tl ih =>
    intro a c
    simp only [List.foldl_cons, List.length_cons, ih, Prod.mk.injEq, true_and]
    omega

lemma foldl_or_eq_zero (g : Nat → Nat) :
    ∀ (l : List Nat) (a : Nat),
      (l.foldl (fun x i => x ||| g i) a = 0 ↔ a = 0 ∧ ∀ i ∈ l, g i = 0) := by
  intro l
  induction l with
  | nil => simp
  | cons hd tl ih =>
    intro a
    simp only [List.foldl_cons, ih, nat_or_eq_zero, List.mem_cons]
    constructor
    · rintro ⟨⟨h1, h2⟩, h3⟩
      exact ⟨h1, fun i hi => hi.elim (fun he => he ▸ h2) (h3 i)⟩
    · rintro ⟨h1, h2⟩
      exact ⟨⟨h1, h2 hd (Or.inl rfl)⟩, fun i hi => h2 i (Or.inr hi)⟩

lemma tadVerifyAuthKeyCounted_snd (k : List Nat) : (tadVerifyAuthKeyCounted k).2 = 64 := rfl

lemma tadDecodedStep :
    (List.range TAD_AUTH_KEY_SIZE).foldl
      (fun (acc : List Nat × Nat) i =>
        (acc.1 ++ [tadObfuscatedKey.getD i 0 ^^^ TAD_KEY_XOR_MASK], acc.2 + 1))
      ([], 0) = (tadDecodedKeyList, 32) := by decide

lemma tadVerifyAuthKeyCounted_fst (k : List Nat) :
    ((tadVerifyAuthKeyCounted k).1 = true
      ↔ ∀ i < 32, k.getD i 0 = tadDecodedKeyList.getD i 0) := by
  simp only [tadVerifyAuthKeyCounted, tadDecodedStep,
    foldl_pair_or (fun i => tadDecodedKeyList.getD i 0 ^^^ k.getD i 0), beq_iff_eq]
  rw [foldl_or_eq_zero]
  simp only [true_and, List.mem_range, Nat.xor_eq_zero, TAD_AUTH_KEY_SIZE]
  constructor
  · intro h i hi; exact (h i hi).symm
  · intro h i hi; exact (h i hi).symm

lemma getD_ext_32 (k : List Nat) (hk : k.length = 32) :
    ((∀ i < 32, k.getD i 0 = tadDecodedKeyList.getD i 0) ↔ k = tadDecodedKeyList) := by
  have hd : tadDecodedKeyList.length = 32 := by decide
  constructor
  · intro h
    apply List.ext_getElem (by omega)
    intro i h1 h2
    have h3 := h i (by omega)
    rw [List.getD_eq_getElem k 0 h1, List.getD_eq_getElem tadDecodedKeyList 0 h2] at h3
    exact h3
  · intro h i hi
    rw [h]

/- ═══════════ Claim C8 ═══════════ -/

/-- C8: the secret-verification function returns true iff the 32 provided
bytes equal the de-obfuscated stored key byte for byte, and the number of
byte operations it performs is the same for every input (no early exit on
mismatch). -/
theorem tad_c8_const_time :
    (∀ k : List Nat, k.length = 32 →
        (tadVerifyAuthKey k = true ↔ k = tadDecodedKeyList)) ∧
    (∀ k1 k2 : List Nat,
        (tadVerifyAuthKeyCounted k1).2 = (tadVerifyAuthKeyCounted k2).2) := by
  constructor
  · intro k hk
    rw [tadVerifyAuthKey, tadVerifyAuthKeyCounted_fst, getD_ext_32 k hk]
  · intro k1 k2
    rw [tadVerifyAuthKeyCounted_snd, tadVerifyAuthKeyCounted_snd]

/-- C8 witness: instances at a key differing from the secret at byte 0 and
one differing at byte 31; their operation counts coincide. -/
theorem tad_c8_const_time_witness :
    (tadVerifyAuthKey tadKeyDiff0 = true ↔ tadKeyDiff0 = tadDecodedKeyList) ∧
    (tadVerifyAuthKeyCounted tadKeyDiff0).2 = (tadVerifyAuthKeyCounted tadKeyDiff31).2 :=
  ⟨tad_c8_const_time.1 tadKeyDiff0 (by decide),
   tad_c8_const_time.2 tadKeyDiff0 tadKeyDiff31⟩

/- ═══════════ Claim C6 ═══════════ -/

lemma tadObProcessPre_char (s : TadState) (t r m : Nat) (op : ObOperation)
    (ht : t ≠ 0) (hr : r ≠ 0) :
    tadObProcessPreCallback s .process t r op m =
      (if (t = s.protectedPid ∨ t = s.protectedUiPid) ∧
          ¬(r = s.protectedPid ∨ r = s.protectedUiPid)
       then ⟨.success, tadStripRights m TAD_STRIPPED_PROCESS_RIGHTS⟩
       else ⟨.success, m⟩) := by
  simp only [tadObProcessPreCallback]
  by_cases h1 : s.protectedPid = 0 <;> by_cases h2 : s.protectedUiPid = 0 <;>
    by_cases h3 : t = s.protectedPid <;> by_cases h4 : t = s.protectedUiPid <;>
      by_cases h5 : r = s.protectedPid <;> by_cases h6 : r = s.protectedUiPid <;>
        cases op <;> simp_all

lemma tadObThreadPre_char (s : TadState) (t r m : Nat) (op : ObOperation)
    (ht : t ≠ 0) (hr : r ≠ 0) :
    tadObThreadPreCallback s .thread t r op m =
      (if (t = s.protectedPid ∨ t = s.protectedUiPid) ∧
          ¬(r = s.protectedPid ∨ r = s.protectedUiPid)
       then ⟨.success, tadStripRights m TAD_STRIPPED_THREAD_RIGHTS⟩
       else ⟨.success, m⟩) := by
  simp only [tadObThreadPreCallback]
  by_cases h1 : s.protectedPid = 0 <;> by_cases h2 : s.protectedUiPid = 0 <;>
    by_cases h3 : t = s.protectedPid <;> by_cases h4 : t = s.protectedUiPid <;>
      by_cases h5 : r = s.protectedPid <;> by_cases h6 : r = s.protectedUiPid <;>
        cases op <;> simp_all

/-- C6: a handle-create or duplicate attempt on a process (for the process
callback) or a thread (for the thread callback, which additionally strips
set-context) whose target belongs to a protected slot and whose requester
is neither slot yields the requested mask with the dangerous-rights bits
cleared, and the callback still reports success; a self-management attempt,
an attempt on an unprotected target, or an attempt while neither slot is
set leaves the mask unchanged.  (`t`, `r` nonzero: real process identities,
distinct from the NULL slot sentinel.) -/
theorem tad_c6_handle_strip (s : TadState) (t r m : Nat) (op : ObOperation)
    (ht : t ≠ 0) (hr : r ≠ 0) :
    (((s.protectedPid ≠ 0 ∨ s.protectedUiPid ≠ 0) ∧
        (t = s.protectedPid ∨ t = s.protectedUiPid) ∧
        r ≠ s.protectedPid ∧ r ≠ s.protectedUiPid) →
      tadObProcessPreCallback s .process t r op m
          = ⟨.success, tadStripRights m TAD_STRIPPED_PROCESS_RIGHTS⟩ ∧
      tadObThreadPreCallback s .thread t r op m
          = ⟨.success, tadStripRights m TAD_STRIPPED_THREAD_RIGHTS⟩) ∧
    ((r = s.protectedPid ∨ r = s.protectedUiPid ∨
        (t ≠ s.protectedPid ∧ t ≠ s.protectedUiPid) ∨
        (s.protectedPid = 0 ∧ s.protectedUiPid = 0)) →
      tadObProcessPreCallback s .process t r op m = ⟨.success, m⟩ ∧
      tadObThreadPreCallback s .thread t r op m = ⟨.success, m⟩) := by
  rw [tadObProcessPre_char s t r m op ht hr, tadObThreadPre_char s t r m op ht hr]
  constructor
  · rintro ⟨_, ha, hb, hc⟩
    rw [if_pos ⟨ha, by tauto⟩, if_pos ⟨ha, by tauto⟩]
    exact ⟨rfl, rfl⟩
  · intro h
    have hn : ¬((t = s.protectedPid ∨ t = s.protectedUiPid) ∧
        ¬(r = s.protectedPid ∨ r = s.protectedUiPid)) := by
      rcases h with h | h | h | h
      · tauto
      · tauto
      · tauto
      · rintro ⟨hA, _⟩
        rcases hA with hA | hA
        · exact ht (hA.trans h.1)
        · exact ht (hA.trans h.2)
    rw [if_neg hn, if_neg hn]
    exact ⟨rfl, rfl⟩

/-- C6 witness: with only the service slot set to 5, a request by process 9
targeting 5 with full mask 0xFFFF is stripped (and succeeds); the claim's
other branch applies to a request by the protected process itself. -/
theorem tad_c6_handle_strip_witness :
    (tadObProcessPreCallback { tadInitialState with protectedPid := 5 } .process 5 9
        .handleCreate 0xFFFF
      = ⟨.success, tadStripRights 0xFFFF TAD_STRIPPED_PROCESS_RIGHTS⟩ ∧
     tadObThreadPreCallback { tadInitialState with protectedPid := 5 } .thread 5 9
        .handleCreate 0xFFFF
      = ⟨.success, tadStripRights 0xFFFF TAD_STRIPPED_THREAD_RIGHTS⟩) ∧
    (tadObProcessPreCallback { tadInitialState with protectedPid := 5 } .process 5 5
        .handleCreate 0xFFFF = ⟨.success, 0xFFFF⟩ ∧
     tadObThreadPreCallback { tadInitialState with protectedPid := 5 } .thread 5 5
        .handleCreate 0xFFFF = ⟨.success, 0xFFFF⟩) :=
  ⟨(tad_c6_handle_strip { tadInitialState with protectedPid := 5 } 5 9 0xFFFF
      .handleCreate (by decide) (by decide)).1
      ⟨Or.inl (by decide), Or.inl rfl, by decide, by decide⟩,
   (tad_c6_handle_strip { tadInitialState with protectedPid := 5 } 5 5 0xFFFF
      .handleCreate (by decide) (by decide)).2 (Or.inl rfl)⟩

/- ═══════════ Claim C7 ═══════════ -/

/-- C7: for every recognized delete or rename set-information operation with
a resolved final path component, the request is denied with access-denied
and completed (no lower-level handler) exactly when the component equals,
case-insensitively, one of the three protected filenames; otherwise it
passes through unchanged. -/
theorem tad_c7_file_protect (ic : FileInfoClass) (comp : List Nat)
    (h : tadRecognizedOp ic = true) :
    tadPreSetInformationCallback ic (some comp) =
      (if tadIsProtectedFilename comp then FltPreOpResult.complete .accessDenied
       else .successNoCallback) := by
  simp [tadPreSetInformationCallback, h]

/-- C7 witness: a rename of `TAD.RV.sys` is denied and completed. -/
theorem tad_c7_file_protect_witness :
    tadPreSetInformationCallback .renameInformation (some TAD_DRIVER_FILENAME)
      = .complete .accessDenied := by
  rw [tad_c7_file_protect .renameInformation TAD_DRIVER_FILENAME (by decide)]
  decide

/- ═══════════ Claim C10 ═══════════ -/

/-- C10: every `FileDispositionInformationEx` request is treated as a
deletion attempt regardless of the disposition flags it carries, so on a
protected filename it is denied even when the flags would clear the delete
disposition; the non-extended `FileDispositionInformation` class inspects
`DeleteFile` and lets a `DeleteFile = false` request pass through. -/
theorem tad_c10_dispositionEx :
    (∀ (flags : Nat) (comp : List Nat), tadIsProtectedFilename comp = true →
        tadPreSetInformationCallback (.dispositionInformationEx flags) (some comp)
          = .complete .accessDenied) ∧
    (∀ comp : List Nat,
        tadPreSetInformationCallback (.dispositionInformation (some false)) (some comp)
          = .successNoCallback) := by
  constructor
  · intro flags comp hc
    simp [tadPreSetInformationCallback, tadRecognizedOp, hc]
  · intro comp
    simp [tadPreSetInformationCallback, tadRecognizedOp]

/-- C10 witness: flags `0` (`FILE_DISPOSITION_DO_NOT_DELETE`, i.e. a request
cancelling a pending deletion) on the protected driver file is still
denied. -/
theorem tad_c10_dispositionEx_witness :
    tadPreSetInformationCallback (.dispositionInformationEx 0) (some TAD_DRIVER_FILENAME)
      = .complete .accessDenied :=
  tad_c10_dispositionEx.1 0 TAD_DRIVER_FILENAME (by decide)

/- ═══════════ Claim C9 ═══════════ -/

/-- C9: ProtectPid with TargetPid = 0 or non-zero Flags, SetPolicy with a
version-2 payload (from a caller passing the identity check), and
SetBannedApps with Count = 33 (from the registered agent) are each rejected
with invalid-parameter, and each rejection returns with the enforcement
state `s` unchanged. -/
theorem tad_c9_validation (s : TadState) (caller : Nat) (now : Int)
    (pidExists : Nat → Bool) :
    (∀ p : TadProtectPidInput, p.targetPid = 0 ∨ p.flags ≠ 0 →
        tadDispatchDeviceControl pidExists caller now s
            (.protectPid sizeofProtectPidInput (some p)) = .ok .invalidParameter s 0) ∧
    (∀ pol : TadPolicyBuffer, (s.agentProcess = none ∨ s.agentProcess = some caller) →
        pol.version = 2 →
        tadDispatchDeviceControl pidExists caller now s
            (.setPolicy sizeofPolicyBuffer (some pol)) = .ok .invalidParameter s 0) ∧
    (∀ inp : TadBannedAppsInput, s.agentProcess = some caller → inp.count = 33 →
        tadDispatchDeviceControl pidExists caller now s
            (.setBannedApps sizeofBannedAppsInput (some inp)) = .ok .invalidParameter s 0) := by
  refine ⟨?_, ?_, ?_⟩
  · intro p hp
    rcases hp with hp | hp <;>
      simp [tadDispatchDeviceControl, tadProtectPidHandler, hp, sizeofProtectPidInput]
  · intro pol hag hver
    rcases hag with hag | hag <;>
      simp [tadDispatchDeviceControl, tadSetPolicyHandler, tadIsCallerProtectedAgent,
        hag, hver, sizeofPolicyBuffer]
  · intro inp hag hcount
    simp [tadDispatchDeviceControl, tadSetBannedAppsHandler, tadIsCallerProtectedAgent,
      hag, hcount, sizeofBannedAppsInput, TAD_MAX_BANNED_APPS]

/-- C9 witness: the three rejections at a state with agent 7, from caller 7. -/
theorem tad_c9_validation_witness :
    (tadDispatchDeviceControl (fun _ => true) 7 0 tadW5a
        (.protectPid sizeofProtectPidInput (some ⟨0, 0⟩)) = .ok .invalidParameter tadW5a 0) ∧
    (tadDispatchDeviceControl (fun _ => true) 7 0 tadW5a
        (.setPolicy sizeofPolicyBuffer (some { tadZeroPolicy with version := 2 }))
          = .ok .invalidParameter tadW5a 0) ∧
    (tadDispatchDeviceControl (fun _ => true) 7 0 tadW5a
        (.setBannedApps sizeofBannedAppsInput (some ⟨33, []⟩))
          = .ok .invalidParameter tadW5a 0) :=
  ⟨(tad_c9_validation tadW5a 7 0 (fun _ => true)).1 ⟨0, 0⟩ (Or.inl rfl),
   (tad_c9_validation tadW5a 7 0 (fun _ => true)).2.1 _ (Or.inr rfl) rfl,
   (tad_c9_validation tadW5a 7 0 (fun _ => true)).2.2 ⟨33, []⟩ rfl rfl⟩

/- ═══════════ Claim C1 ═══════════ -/

/-- C1 counterexample: with no ServicePid registered (load state) a HardLock
request from an arbitrary caller IS rejected with access-denied — the
caller-identity check is not skipped for this opcode, contradicting the
claim's bootstrap-window statement. -/
theorem tad_c1_counterexample :
    tadDispatchDeviceControl (fun _ => true) 42 0 tadInitialState
        (.hardLock sizeofHardLockInput (some ⟨1, 0⟩))
      = .ok .accessDenied tadInitialState 0 := by decide

/-- C1 (amended): for Unlock, SetUserRole and SetPolicy the identity check
is skipped while no ServicePid is registered and, once one is registered,
rejects exactly the callers that are not it; for HardLock, ProtectUi,
Stealth and SetBannedApps the request is access-denied exactly when the
caller is not a registered ServicePid — in particular it is always denied
while no ServicePid is registered.  (The Unlock part is stated for a
correct-secret request with no active lockout, and the SetPolicy part for a
version-1 payload, so that access-denied can arise only from the identity
check.) -/
theorem tad_c1_amended (s : TadState) (caller : Nat) (now : Int)
    (pidExists : Nat → Bool) :
    (∀ inp : TadSetUserRoleInput,
        (tadDispatchDeviceControl pidExists caller now s
            (.setUserRole sizeofSetUserRoleInput (some inp)) = .ok .accessDenied s 0
          ↔ (s.agentProcess ≠ none ∧ s.agentProcess ≠ some caller))) ∧
    (∀ pol : TadPolicyBuffer, pol.version = 1 →
        (tadDispatchDeviceControl pidExists caller now s
            (.setPolicy sizeofPolicyBuffer (some pol)) = .ok .accessDenied s 0
          ↔ (s.agentProcess ≠ none ∧ s.agentProcess ≠ some caller))) ∧
    (s.failedUnlockAttempts < TAD_MAX_UNLOCK_ATTEMPTS →
        (tadDispatchDeviceControl pidExists caller now s
            (.unlock sizeofUnlockInput (some tadDecodedKeyList)) = .ok .accessDenied s 0
          ↔ (s.agentProcess ≠ none ∧ s.agentProcess ≠ some caller))) ∧
    (∀ inp : TadHardLockInput,
        (tadDispatchDeviceControl pidExists caller now s
            (.hardLock sizeofHardLockInput (some inp)) = .ok .accessDenied s 0
          ↔ s.agentProcess ≠ some caller)) ∧
    (∀ inp : TadProtectUiInput,
        (tadDispatchDeviceControl pidExists caller now s
            (.protectUi sizeofProtectUiInput (some inp)) = .ok .accessDenied s 0
          ↔ s.agentProcess ≠ some caller)) ∧
    (∀ inp : TadStealthInput,
        (tadDispatchDeviceControl pidExists caller now s
            (.stealth sizeofStealthInput (some inp)) = .ok .accessDenied s 0
          ↔ s.agentProcess ≠ some caller)) ∧
    (∀ inp : TadBannedAppsInput,
        (tadDispatchDeviceControl pidExists caller now s
            (.setBannedApps sizeofBannedAppsInput (some inp)) = .ok .accessDenied s 0
          ↔ s.agentProcess ≠ some caller)) := by
  have hv : tadVerifyAuthKey tadDecodedKeyList = true := by decide
  refine ⟨?_, ?_, ?_, ?_, ?_, ?_, ?_⟩
  · intro inp
    cases hag : s.agentProcess with
    | none =>
      simp [tadDispatchDeviceControl, tadSetUserRoleHandler, tadIsCallerProtectedAgent,
        hag, sizeofSetUserRoleInput]
    | some a =>
      by_cases hc : a = caller <;>
        simp [tadDispatchDeviceControl, tadSetUserRoleHandler, tadIsCallerProtectedAgent,
          hag, hc, sizeofSetUserRoleInput]
  · intro pol hver
    cases hag : s.agentProcess with
    | none =>
      simp [tadDispatchDeviceControl, tadSetPolicyHandler, tadIsCallerProtectedAgent,
        hag, hver, sizeofPolicyBuffer]
    | some a =>
      by_cases hc : a = caller <;>
        simp [tadDispatchDeviceControl, tadSetPolicyHandler, tadIsCallerProtectedAgent,
          hag, hc, hver, sizeofPolicyBuffer]
  · intro hf
    have hnb : ¬ (TAD_MAX_UNLOCK_ATTEMPTS ≤ s.failedUnlockAttempts) := by omega
    cases hag : s.agentProcess with
    | none =>
      simp [tadDispatchDeviceControl, tadUnlockHandler, tadUnlockVerifyPhase,
        tadIsCallerProtectedAgent, hag, hnb, hv, sizeofUnlockInput]
    | some a =>
      by_cases hc : a = caller <;>
        simp [tadDispatchDeviceControl, tadUnlockHandler, tadUnlockVerifyPhase,
          tadIsCallerProtectedAgent, hag, hc, hnb, hv, sizeofUnlockInput]
  · intro inp
    cases hag : s.agentProcess with
    | none =>
      simp [tadDispatchDeviceControl, tadHardLockHandler, tadIsCallerProtectedAgent,
        hag, sizeofHardLockInput]
    | some a =>
      by_cases hc : a = caller <;>
        simp [tadDispatchDeviceControl, tadHardLockHandler, tadIsCallerProtectedAgent,
          hag, hc, sizeofHardLockInput]
  · intro inp
    cases hag : s.agentProcess with
    | none =>
      simp [tadDispatchDeviceControl, tadProtectUiHandler, tadIsCallerProtectedAgent,
        hag, sizeofProtectUiInput]
    | some a =>
      by_cases hc : a = caller <;>
        by_cases hp : inp.protect = 0 <;>
          simp [tadDispatchDeviceControl, tadProtectUiHandler, tadIsCallerProtectedAgent,
            hag, hc, hp, sizeofProtectUiInput]
  · intro inp
    cases hag : s.agentProcess with
    | none =>
      simp [tadDispatchDeviceControl, tadStealthHandler, tadIsCallerProtectedAgent,
        hag, sizeofStealthInput]
    | some a =>
      by_cases hc : a = caller <;>
        by_cases hp : inp.enable = 0 <;>
          simp [tadDispatchDeviceControl, tadStealthHandler, tadIsCallerProtectedAgent,
            hag, hc, hp, sizeofStealthInput]
  · intro inp
    cases hag : s.agentProcess with
    | none =>
      simp [tadDispatchDeviceControl, tadSetBannedAppsHandler, tadIsCallerProtectedAgent,
        hag, sizeofBannedAppsInput]
    | some a =>
      by_cases hc : a = caller <;>
        by_cases hcount : TAD_MAX_BANNED_APPS < inp.count <;>
          simp [tadDispatchDeviceControl, tadSetBannedAppsHandler, tadIsCallerProtectedAgent,
            hag, hc, hcount, sizeofBannedAppsInput]

/-- C1 amended witness: at the load state (no ServicePid), from caller 42,
SetPolicy is not identity-denied, Unlock with the correct secret is not
denied, and HardLock is denied. -/
theorem tad_c1_amended_witness :
    (tadDispatchDeviceControl (fun _ => true) 42 0 tadInitialState
        (.setPolicy sizeofPolicyBuffer (some { tadZeroPolicy with version := 1 }))
          = .ok .accessDenied tadInitialState 0
      ↔ (tadInitialState.agentProcess ≠ none ∧ tadInitialState.agentProcess ≠ some 42)) ∧
    (tadDispatchDeviceControl (fun _ => true) 42 0 tadInitialState
        (.unlock sizeofUnlockInput (some tadDecodedKeyList))
          = .ok .accessDenied tadInitialState 0
      ↔ (tadInitialState.agentProcess ≠ none ∧ tadInitialState.agentProcess ≠ some 42)) ∧
    (tadDispatchDeviceControl (fun _ => true) 42 0 tadInitialState
        (.hardLock sizeofHardLockInput (some ⟨1, 0⟩)) = .ok .accessDenied tadInitialState 0
      ↔ tadInitialState.agentProcess ≠ some 42) :=
  ⟨(tad_c1_amended tadInitialState 42 0 (fun _ => true)).2.1 _ rfl,
   (tad_c1_amended tadInitialState 42 0 (fun _ => true)).2.2.1 (by decide),
   (tad_c1_amended tadInitialState 42 0 (fun _ => true)).2.2.2.1 ⟨1, 0⟩⟩

/- ═══════════ Claim C3 ═══════════ -/

/-- C3 counterexample: a HardLock request with a NULL system buffer from the
registered agent is NOT rejected — the handler dereferences the NULL
buffer, contradicting the claim that every opcode rejects a null buffer
before any dereference. -/
theorem tad_c3_counterexample :
    tadDispatchDeviceControl (fun _ => true) 7 0 tadW5a
        (.hardLock sizeofHardLockInput none) = .nullDeref tadW5a := by decide

/-- C3 (amended): ProtectPid, Unlock, SetUserRole and SetPolicy reject a
NULL system buffer with invalid-parameter right after the size check and
before any dereference; HardLock, ProtectUi, Stealth and SetBannedApps
perform no NULL check — whenever the size and caller-identity checks pass
they read through the buffer, dereferencing NULL if it is NULL. -/
theorem tad_c3_amended (s : TadState) (caller : Nat) (now : Int)
    (pidExists : Nat → Bool) :
    (tadDispatchDeviceControl pidExists caller now s
        (.protectPid sizeofProtectPidInput none) = .ok .invalidParameter s 0) ∧
    (tadDispatchDeviceControl pidExists caller now s
        (.unlock sizeofUnlockInput none) = .ok .invalidParameter s 0) ∧
    (tadDispatchDeviceControl pidExists caller now s
        (.setUserRole sizeofSetUserRoleInput none) = .ok .invalidParameter s 0) ∧
    (tadDispatchDeviceControl pidExists caller now s
        (.setPolicy sizeofPolicyBuffer none) = .ok .invalidParameter s 0) ∧
    (s.agentProcess = some caller →
      (tadDispatchDeviceControl pidExists caller now s
          (.hardLock sizeofHardLockInput none) = .nullDeref s) ∧
      (tadDispatchDeviceControl pidExists caller now s
          (.protectUi sizeofProtectUiInput none) = .nullDeref s) ∧
      (tadDispatchDeviceControl pidExists caller now s
          (.stealth sizeofStealthInput none) = .nullDeref s) ∧
      (tadDispatchDeviceControl pidExists caller now s
          (.setBannedApps sizeofBannedAppsInput none) = .nullDeref s)) := by
  refine ⟨?_, ?_, ?_, ?_, ?_⟩
  · simp [tadDispatchDeviceControl, tadProtectPidHandler, sizeofProtectPidInput]
  · simp [tadDispatchDeviceControl, tadUnlockHandler, sizeofUnlockInput]
  · simp [tadDispatchDeviceControl, tadSetUserRoleHandler, sizeofSetUserRoleInput]
  · simp [tadDispatchDeviceControl, tadSetPolicyHandler, sizeofPolicyBuffer]
  · intro hag
    refine ⟨?_, ?_, ?_, ?_⟩ <;>
      simp [tadDispatchDeviceControl, tadHardLockHandler, tadProtectUiHandler,
        tadStealthHandler, tadSetBannedAppsHandler, tadIsCallerProtectedAgent, hag,
        sizeofHardLockInput, sizeofProtectUiInput, sizeofStealthInput,
        sizeofBannedAppsInput]

/-- C3 amended witness: the NULL-buffer rejection of ProtectPid and the
NULL dereference of HardLock at a state whose agent is the caller. -/
theorem tad_c3_amended_witness :
    (tadDispatchDeviceControl (fun _ => true) 7 0 tadW5a
        (.protectPid sizeofProtectPidInput none) = .ok .invalidParameter tadW5a 0) ∧
    (tadDispatchDeviceControl (fun _ => true) 7 0 tadW5a
        (.hardLock sizeofHardLockInput none) = .nullDeref tadW5a) :=
  ⟨(tad_c3_amended tadW5a 7 0 (fun _ => true)).1,
   ((tad_c3_amended tadW5a 7 0 (fun _ => true)).2.2.2.2 rfl).1⟩

/- ═══════════ Claim C2 ═══════════ -/

/-- C2 (code bug): with the banned list pushed as
`Count = 2, [L"" (invalid), L"a.exe" (valid)]`, the entry `a.exe` is a valid
entry (non-empty, NUL-terminated in its field), the request succeeds, and a
subsequent launch of `\Windows\a.exe` (whose final component equals that
valid entry case-insensitively) is nevertheless allowed, because the valid
entry was stored at slot 1 while `BannedAppCount = 1` makes the intercept
scan only slot 0.  With the same entries in the opposite order the launch
is denied — pinpointing the sparse-index/dense-count mismatch. -/
theorem tad_c2_bug :
    (tadEntryChars (tadC2Input.imageNames.getD 1 []) = wstr "a.exe" ∧
     (wstr "a.exe").length ≠ 0 ∧ (wstr "a.exe").length < TAD_MAX_IMAGE_NAME_LEN) ∧
    tadDispatchDeviceControl (fun _ => true) 7 0 tadC2State
        (.setBannedApps sizeofBannedAppsInput (some tadC2Input))
      = .ok .success
          (tadOutcomeState (tadDispatchDeviceControl (fun _ => true) 7 0 tadC2State
            (.setBannedApps sizeofBannedAppsInput (some tadC2Input)))) 0 ∧
    tadProcessNotifyCallback
        (tadOutcomeState (tadDispatchDeviceControl (fun _ => true) 7 0 tadC2State
          (.setBannedApps sizeofBannedAppsInput (some tadC2Input))))
        (some (wstr "\\Windows\\a.exe")) = false ∧
    tadProcessNotifyCallback
        (tadOutcomeState (tadDispatchDeviceControl (fun _ => true) 7 0 tadC2State
          (.setBannedApps sizeofBannedAppsInput (some tadC2InputSwapped))))
        (some (wstr "\\Windows\\a.exe")) = true := by decide

/- ═══════════ Claim C4 ═══════════ -/

lemma tadUnlock_wrong_step (caller : Nat) (now : Int) (s : TadState) (k : List Nat)
    (hag : s.agentProcess = none)
    (hf : s.failedUnlockAttempts < TAD_MAX_UNLOCK_ATTEMPTS)
    (hk : tadVerifyAuthKey k = false) :
    tadUnlockHandler caller now s sizeofUnlockInput (some k) =
      .ok .accessDenied
        (if TAD_MAX_UNLOCK_ATTEMPTS ≤ s.failedUnlockAttempts + 1
         then { s with failedUnlockAttempts := s.failedUnlockAttempts + 1
                     , lockoutUntil := now + TAD_LOCKOUT_TICKS }
         else { s with failedUnlockAttempts := s.failedUnlockAttempts + 1 }) 0 := by
  have hnb : ¬ (TAD_MAX_UNLOCK_ATTEMPTS ≤ s.failedUnlockAttempts) := by omega
  simp [tadUnlockHandler, tadUnlockVerifyPhase, hag, hnb, hk, sizeofUnlockInput]
  split <;> rename_i hsplit <;> simp [hsplit]

/-- C4: starting from FailedAttempts = 0 (no agent registered, so the
identity check is moot), five consecutive wrong-secret Unlock requests are
denied with the counter rising to 5 and `LockoutUntil` set to the fifth
attempt's time plus the 30 s window; a correct-secret request before
`LockoutUntil` is denied leaving the state (in particular FailedAttempts)
unchanged; a correct-secret request at or after `LockoutUntil` succeeds,
sets AllowUnload and resets FailedAttempts to 0. -/
theorem tad_c4_lockout (caller : Nat) (t1 t2 t3 t4 t5 t6 t7 : Int)
    (k1 k2 k3 k4 k5 kc : List Nat) (s0 : TadState)
    (hag : s0.agentProcess = none) (hf0 : s0.failedUnlockAttempts = 0)
    (h1 : tadVerifyAuthKey k1 = false) (h2 : tadVerifyAuthKey k2 = false)
    (h3 : tadVerifyAuthKey k3 = false) (h4 : tadVerifyAuthKey k4 = false)
    (h5 : tadVerifyAuthKey k5 = false) (hc : tadVerifyAuthKey kc = true)
    (h6 : t6 < t5 + TAD_LOCKOUT_TICKS) (h7 : t5 + TAD_LOCKOUT_TICKS ≤ t7) :
    (tadUnlockHandler caller t1 s0 sizeofUnlockInput (some k1)
       = .ok .accessDenied { s0 with failedUnlockAttempts := 1 } 0) ∧
    (tadUnlockHandler caller t2 { s0 with failedUnlockAttempts := 1 }
        sizeofUnlockInput (some k2)
       = .ok .accessDenied { s0 with failedUnlockAttempts := 2 } 0) ∧
    (tadUnlockHandler caller t3 { s0 with failedUnlockAttempts := 2 }
        sizeofUnlockInput (some k3)
       = .ok .accessDenied { s0 with failedUnlockAttempts := 3 } 0) ∧
    (tadUnlockHandler caller t4 { s0 with failedUnlockAttempts := 3 }
        sizeofUnlockInput (some k4)
       = .ok .accessDenied { s0 with failedUnlockAttempts := 4 } 0) ∧
    (tadUnlockHandler caller t5 { s0 with failedUnlockAttempts := 4 }
        sizeofUnlockInput (some k5)
       = .ok .accessDenied { s0 with failedUnlockAttempts := 5, lockoutUntil := t5 + TAD_LOCKOUT_TICKS } 0) ∧
    (tadUnlockHandler caller t6 { s0 with failedUnlockAttempts := 5, lockoutUntil := t5 + TAD_LOCKOUT_TICKS }
        sizeofUnlockInput (some kc)
       = .ok .accessDenied { s0 with failedUnlockAttempts := 5, lockoutUntil := t5 + TAD_LOCKOUT_TICKS } 0) ∧
    (tadUnlockHandler caller t7 { s0 with failedUnlockAttempts := 5, lockoutUntil := t5 + TAD_LOCKOUT_TICKS }
        sizeofUnlockInput (some kc)
       = .ok .success { s0 with failedUnlockAttempts := 0, lockoutUntil := t5 + TAD_LOCKOUT_TICKS, allowUnload := true } 0) := by
  have h7n : ¬ (t7 < t5 + TAD_LOCKOUT_TICKS) := Int.not_lt.mpr h7
  refine ⟨?_, ?_, ?_, ?_, ?_, ?_, ?_⟩
  · have e1 := tadUnlock_wrong_step caller t1 s0 k1 hag (by rw [hf0]; decide) h1
    rw [hf0] at e1
    simpa [TAD_MAX_UNLOCK_ATTEMPTS] using e1
  · have e2 := tadUnlock_wrong_step caller t2 { s0 with failedUnlockAttempts := 1 }
      k2 hag (show (1:Nat) < TAD_MAX_UNLOCK_ATTEMPTS by decide) h2
    simpa [TAD_MAX_UNLOCK_ATTEMPTS] using e2
  · have e3 := tadUnlock_wrong_step caller t3 { s0 with failedUnlockAttempts := 2 }
      k3 hag (show (2:Nat) < TAD_MAX_UNLOCK_ATTEMPTS by decide) h3
    simpa [TAD_MAX_UNLOCK_ATTEMPTS] using e3
  · have e4 := tadUnlock_wrong_step caller t4 { s0 with failedUnlockAttempts := 3 }
      k4 hag (show (3:Nat) < TAD_MAX_UNLOCK_ATTEMPTS by decide) h4
    simpa [TAD_MAX_UNLOCK_ATTEMPTS] using e4
  · have e5 := tadUnlock_wrong_step caller t5 { s0 with failedUnlockAttempts := 4 }
      k5 hag (show (4:Nat) < TAD_MAX_UNLOCK_ATTEMPTS by decide) h5
    simpa [TAD_MAX_UNLOCK_ATTEMPTS] using e5
  · simp [tadUnlockHandler, tadIsCallerProtectedAgent, hag, h6,
      sizeofUnlockInput, TAD_MAX_UNLOCK_ATTEMPTS]
  · simp [tadUnlockHandler, tadUnlockVerifyPhase, tadIsCallerProtectedAgent, hag,
      h7n, hc, sizeofUnlockInput, TAD_MAX_UNLOCK_ATTEMPTS]

/-- C4 witness: the lockout trajectory at concrete times and keys (wrong key
all-zero, correct key the decoded secret); the locked-out denial at time 1
and the post-window success at time 300000000. -/
theorem tad_c4_lockout_witness :
    (tadUnlockHandler 1 1 { tadInitialState with failedUnlockAttempts := 5, lockoutUntil := 0 + TAD_LOCKOUT_TICKS }
        sizeofUnlockInput (some tadDecodedKeyList)
       = .ok .accessDenied { tadInitialState with failedUnlockAttempts := 5, lockoutUntil := 0 + TAD_LOCKOUT_TICKS } 0) ∧
    (tadUnlockHandler 1 300000000 { tadInitialState with failedUnlockAttempts := 5, lockoutUntil := 0 + TAD_LOCKOUT_TICKS }
        sizeofUnlockInput (some tadDecodedKeyList)
       = .ok .success { tadInitialState with failedUnlockAttempts := 0, lockoutUntil := 0 + TAD_LOCKOUT_TICKS, allowUnload := true } 0) :=
  ⟨(tad_c4_lockout 1 0 0 0 0 0 1 300000000 (List.replicate 32 0) (List.replicate 32 0)
      (List.replicate 32 0) (List.replicate 32 0) (List.replicate 32 0) tadDecodedKeyList
      tadInitialState rfl rfl (by decide) (by decide) (by decide) (by decide) (by decide)
      (by decide) (by decide) (by decide)).2.2.2.2.2.1,
   (tad_c4_lockout 1 0 0 0 0 0 1 300000000 (List.replicate 32 0) (List.replicate 32 0)
      (List.replicate 32 0) (List.replicate 32 0) (List.replicate 32 0) tadDecodedKeyList
      tadInitialState rfl rfl (by decide) (by decide) (by decide) (by decide) (by decide)
      (by decide) (by decide) (by decide)).2.2.2.2.2.2⟩

/- ═══════════ Claim C5 ═══════════ -/

lemma tadDispatch_policy_cases {pidExists : Nat → Bool} {caller : Nat} {now : Int}
    {s : TadState} {req : TadRequest} {st : NtStatus} {s' : TadState} {info : Nat}
    (hd : tadDispatchDeviceControl pidExists caller now s req = .ok st s' info) :
    (s'.policyValid = s.policyValid ∧ s'.currentPolicy = s.currentPolicy) ∨
      s'.policyValid = true := by
  cases req <;>
    simp only [tadDispatchDeviceControl, tadProtectPidHandler, tadUnlockHandler,
      tadUnlockVerifyPhase, tadHeartbeatHandler, tadSetUserRoleHandler,
      tadSetPolicyHandler, tadReadAlertHandler, tadHardLockHandler,
      tadProtectUiHandler, tadStealthHandler, tadSetBannedAppsHandler] at hd <;>
    (repeat' split at hd) <;>
    (first
      | (cases hd; right; rfl)
      | (cases hd; left; exact ⟨rfl, rfl⟩)
      | cases hd)

lemma tadReachable_policy_inv {s : TadState} (h : TadReachable s) :
    s.currentPolicy.flags &&& TAD_POLICY_FLAG_BLOCK_APPS ≠ 0 → s.policyValid = true := by
  induction h with
  | init =>
    intro hf
    exact absurd (by decide :
      tadInitialState.currentPolicy.flags &&& TAD_POLICY_FLAG_BLOCK_APPS = 0) hf
  | step _ hd ih =>
    rcases tadDispatch_policy_cases hd with ⟨h1, h2⟩ | h1
    · intro hf
      rw [h1]
      exact ih (h2 ▸ hf)
    · intro _
      exact h1

lemma tadEqualCI_length {a b : List Nat} (h : tadEqualCI a b = true) :
    a.length = b.length := by
  have := congrArg List.length (by simpa [tadEqualCI] using h)
  simpa using this

lemma tadEqualCI_ne_nil {a b : List Nat} (ha : a ≠ []) (h : tadEqualCI a b = true) :
    b ≠ [] := by
  intro hb
  subst hb
  exact ha (List.length_eq_zero.mp (tadEqualCI_length h))

lemma tad_any_iff_bannedSet (comp : List Nat) (l : List (List Nat)) (hc : comp ≠ []) :
    ((l.any fun e => tadEqualCI comp e) = true ↔
      ∃ e ∈ l.filter (fun e => e ≠ []), tadEqualCI comp e = true) := by
  rw [List.any_eq_true]
  constructor
  · rintro ⟨e, he, heq⟩
    exact ⟨e, List.mem_filter.mpr ⟨he, by simpa using tadEqualCI_ne_nil hc heq⟩, heq⟩
  · rintro ⟨e, he, heq⟩
    exact ⟨e, (List.mem_filter.mp he).1, heq⟩

/-- C5: in every reachable driver state, the Process-Launch Intercept denies
a creation if and only if the policy is valid, the block-apps flag is set,
and the final path component of the image path equals, case-insensitively,
an entry of the current banned-app set; with the flag unset every launch
passes, and a filename matching no entry is always allowed. -/
theorem tad_c5_process_block (s : TadState) (hs : TadReachable s) (name : List Nat) :
    tadProcessNotifyCallback s (some name) = true ↔
      (s.policyValid = true ∧
       s.currentPolicy.flags &&& TAD_POLICY_FLAG_BLOCK_APPS ≠ 0 ∧
       ∃ e ∈ tadBannedSet s, tadEqualCI (tadFinalComponent name) e = true) := by
  by_cases hflag : s.currentPolicy.flags &&& TAD_POLICY_FLAG_BLOCK_APPS = 0
  · simp [tadProcessNotifyCallback, hflag]
  · have hval := tadReachable_policy_inv hs hflag
    by_cases hn : name.length = 0
    · have hcomp : tadFinalComponent name = [] := by
        rw [List.length_eq_zero.mp hn]
        rfl
      simp only [tadProcessNotifyCallback, hn, if_true, eq_self_iff_true]
      simp only [hval, hflag, true_and, ne_eq, not_false_iff, tadBannedSet, hcomp]
      constructor
      · intro h
        exact absurd h (by simp)
      · rintro ⟨e, he, heq⟩
        have := tadEqualCI_length heq
        have hene : e ≠ [] := by simpa using (List.mem_filter.mp he).2
        simp at this
        exact absurd (List.length_eq_zero.mp this.symm) hene
    · by_cases hcomp : (tadFinalComponent name).length = 0
      · simp only [tadProcessNotifyCallback, hn, if_false, hflag, hcomp, if_true]
        simp only [hval, hflag, true_and, ne_eq, not_false_iff, tadBannedSet]
        constructor
        · intro h
          exact absurd h (by simp)
        · rintro ⟨e, he, heq⟩
          have := tadEqualCI_length heq
          have hene : e ≠ [] := by simpa using (List.mem_filter.mp he).2
          rw [hcomp] at this
          exact absurd (List.length_eq_zero.mp this.symm) hene
      · simp only [tadProcessNotifyCallback, hn, hflag, hcomp, if_false, ite_false]
        simp only [hval, hflag, true_and, ne_eq, not_false_iff, tadBannedSet]
        exact tad_any_iff_bannedSet _ _ (fun hnil => hcomp (by rw [hnil]; rfl))

/-- C5 witness: at the reachable state holding policy flags 0x10 and banned
set {a.exe}, the launch decision for `C:\Tools\A.EXE`. -/
theorem tad_c5_process_block_witness :
    tadProcessNotifyCallback tadW5c (some (wstr "C:\\Tools\\A.EXE")) = true ↔
      (tadW5c.policyValid = true ∧
       tadW5c.currentPolicy.flags &&& TAD_POLICY_FLAG_BLOCK_APPS ≠ 0 ∧
       ∃ e ∈ tadBannedSet tadW5c,
         tadEqualCI (tadFinalComponent (wstr "C:\\Tools\\A.EXE")) e = true) :=
  tad_c5_process_block tadW5c
    (@TadReachable.step tadW5b (fun _ => true) 7 0
      (.setBannedApps sizeofBannedAppsInput (some ⟨1, [wstr "a.exe"]⟩)) .success tadW5c 0
      (@TadReachable.step tadW5a (fun _ => true) 7 0
        (.setPolicy sizeofPolicyBuffer (some tadW5Pol)) .success tadW5b 0
        (@TadReachable.step tadInitialState (fun _ => true) 0 0
          (.protectPid sizeofProtectPidInput (some ⟨7, 0⟩)) .success tadW5a 0
          TadReachable.init (by decide))
        (by decide))
      (by decide))
    (wstr "C:\\Tools\\A.EXE")

end TadRV
